import Mathlib

/-!
Verification of the pycram excerpt: the TMC command shim
(`src/pycram/external_interfaces/tmc.py`) and the geometry/state data model
(`src/pycram/world_dataclasses.py`).

Python floats are embedded as rationals (`ℚ`); Python exceptions as an
explicit `Except PyError` result; the observable side effects of the shim
(publisher creation, sleeping, publishing) as an explicit event trace.
-/

namespace Pycram

/-- Python exception values that the embedded code can raise:
`ModuleNotFoundError` (raised by a failing `import`), `IndexError`
(raised by an out-of-range list subscript `xs[i]`), and `ValueError`
(raised explicitly with a message). -/
inductive PyError where
  | moduleNotFoundError : PyError
  | indexError : PyError
  | valueError : String → PyError
deriving DecidableEq, Repr

/-- Python list subscript `xs[i]`: the element when `i` is in range,
`IndexError` otherwise. -/
def pyGet (xs : List ℚ) (i : Nat) : Except PyError ℚ :=
  match xs.get? i with
  | some v => Except.ok v
  | none => Except.error PyError.indexError

/-! ## The TMC command shim (`external_interfaces/tmc.py`) -/

/-- Modelled from the spec: the `GripperState` enum consumed by the shim is
declared elsewhere in the repository (not under `src/`); the spec gives its
members as `{OPEN, CLOSE}`. -/
inductive GripperState where
  | OPEN : GripperState
  | CLOSE : GripperState
deriving DecidableEq, Repr

/-- Modelled from the spec: `MoveGripperMotion{motion: {OPEN,CLOSE}}` is a
designator type declared elsewhere in the repository (not under `src/`).
Its `motion` field is dynamically typed in Python, so at run time it can
hold a value other than the two enum members; such values are embedded as
`none`, the two enum members as `some _`. -/
structure MoveGripperMotion where
  motion : Option GripperState
deriving DecidableEq, Repr

/-- Modelled from the spec: `TalkMotion{cmd: string}` is a designator type
declared elsewhere in the repository (not under `src/`). -/
structure TalkMotion where
  cmd : String
deriving DecidableEq, Repr

/-- The nested `goal` payload of `GripperApplyEffortActionGoal`: the shim
writes `msg.goal.effort`. -/
structure GripperApplyEffortGoal where
  effort : ℚ
deriving DecidableEq, Repr

/-- Outbound gripper message type `tmc_control_msgs.msg.GripperApplyEffortActionGoal`. -/
structure GripperApplyEffortActionGoal where
  goal : GripperApplyEffortGoal
deriving DecidableEq, Repr

/-- Outbound speech message type `tmc_msgs.msg.Voice`
(`language`: 1 = english, 0 = japanese). -/
structure Voice where
  language : Int
  sentence : String
deriving DecidableEq, Repr

/-- A message published by the shim. -/
inductive TmcMsg where
  | gripper : GripperApplyEffortActionGoal → TmcMsg
  | voice : Voice → TmcMsg
deriving DecidableEq, Repr

/-- Observable side effects of one shim call, in program order:
`advertise topic queueSize` for `rospy.Publisher(topic, T, queue_size=n)`,
`sleep s` for `rospy.sleep(s)`, and `publish topic msg` for
`pub.publish(msg)`. -/
inductive TmcEvent where
  | advertise : String → Nat → TmcEvent
  | sleep : ℚ → TmcEvent
  | publish : String → TmcMsg → TmcEvent
deriving DecidableEq, Repr

/-- The messages actually published in a trace, with their topics, in order. -/
def publishedMsgs : List TmcEvent → List (String × TmcMsg)
  | [] => []
  | TmcEvent.publish t m :: rest => (t, m) :: publishedMsgs rest
  | _ :: rest => publishedMsgs rest

/-- `tmc_gripper_control(designator, topic_name)`: on `OPEN` it creates a
publisher (queue size 10), sleeps 2 seconds, builds a
`GripperApplyEffortActionGoal` with `goal.effort = 0.8` and publishes it
once; on `CLOSE` the same with `goal.effort = -0.8`; the `if`/`elif` has no
`else`, so any other `motion` value does nothing.  The unused local
`rate = rospy.Rate(10)` has no observable effect and is not traced. -/
def tmc_gripper_control (designator : MoveGripperMotion) (topic_name : String) :
    List TmcEvent :=
  match designator.motion with
  | some GripperState.OPEN =>
      [TmcEvent.advertise topic_name 10, TmcEvent.sleep 2,
       TmcEvent.publish topic_name (TmcMsg.gripper { goal := { effort := 8/10 } })]
  | some GripperState.CLOSE =>
      [TmcEvent.advertise topic_name 10, TmcEvent.sleep 2,
       TmcEvent.publish topic_name (TmcMsg.gripper { goal := { effort := -(8/10) } })]
  | none => []

/-- `tmc_talk(designator, topic_name)`: creates a publisher for `Voice`
(queue size 10), builds a `Voice` with `language = 1` and
`sentence = designator.cmd`, sleeps 1 second and publishes once.
NOTE: the source line reads `pub = rospy.Publisher(topic_name,, Voice,
queue_size=10)` — the doubled comma is a Python syntax error, so the module
as shipped fails to parse; this definition embeds the evident intent of
that line (a single publisher for `Voice` on `topic_name`). -/
def tmc_talk (designator : TalkMotion) (topic_name : String) : List TmcEvent :=
  [TmcEvent.advertise topic_name 10, TmcEvent.sleep 1,
   TmcEvent.publish topic_name (TmcMsg.voice { language := 1, sentence := designator.cmd })]

/-- The process-wide state of the shim: the single module-level flag
`is_init`, initially `false`. -/
structure TmcState where
  is_init : Bool
deriving DecidableEq, Repr

/-- Events of one `init_tmc_interface` call: `resolveAttempt` each time the
`from tmc_control_msgs.msg import ...` statement is executed, `logInfo` for
`rospy.loginfo`, `logWarn` for `rospy.logwarn`. -/
inductive InitEvent where
  | resolveAttempt : InitEvent
  | logInfo : InitEvent
  | logWarn : InitEvent
deriving DecidableEq, Repr

/-- Number of dependency-resolution attempts in an event list. -/
def resolveCount : List InitEvent → Nat
  | [] => 0
  | InitEvent.resolveAttempt :: rest => resolveCount rest + 1
  | _ :: rest => resolveCount rest

/-- The `import` statements inside the `try` block: succeed when the
optional `tmc_control_msgs`/`tmc_msgs` dependency is present, raise
`ModuleNotFoundError` otherwise. -/
def attempt_import (deps_available : Bool) : Except PyError Unit :=
  if deps_available then Except.ok () else Except.error PyError.moduleNotFoundError

/-- `init_tmc_interface()`: returns at once if `is_init` is already true;
otherwise tries the imports — on success sets `is_init = True` and logs
info, on `ModuleNotFoundError` logs a warning and leaves the state
unchanged (the `except` clause catches only `ModuleNotFoundError`; any
other exception would propagate).  The result pairs the new state with the
call trace. -/
def init_tmc_interface (deps_available : Bool) (s : TmcState) :
    Except PyError (TmcState × List InitEvent) :=
  if s.is_init then Except.ok (s, [])
  else
    match attempt_import deps_available with
    | Except.ok _ =>
        Except.ok ({ is_init := true }, [InitEvent.resolveAttempt, InitEvent.logInfo])
    | Except.error PyError.moduleNotFoundError =>
        Except.ok (s, [InitEvent.resolveAttempt, InitEvent.logWarn])
    | Except.error e => Except.error e

/-- Two sequential calls of `init_tmc_interface` with the same dependency
availability, threading the state and concatenating the traces. -/
def init_twice (deps_available : Bool) (s : TmcState) :
    Except PyError (TmcState × List InitEvent) := do
  let (s1, e1) ← init_tmc_interface deps_available s
  let (s2, e2) ← init_tmc_interface deps_available s1
  pure (s2, e1 ++ e2)

/-! ## The geometry/state data model (`world_dataclasses.py`) -/

/-- `Color` dataclass: RGBA components, default white, `A` is opacity. -/
structure Color where
  R : ℚ := 1
  G : ℚ := 1
  B : ℚ := 1
  A : ℚ := 1
deriving DecidableEq, Repr

/-- `Color.from_rgb(rgb)`: builds `Color(rgb[0], rgb[1], rgb[2], 1)`;
the subscripts raise `IndexError` on too-short lists. -/
def Color.from_rgb (rgb : List ℚ) : Except PyError Color := do
  let r ← pyGet rgb 0
  let g ← pyGet rgb 1
  let b ← pyGet rgb 2
  pure { R := r, G := g, B := b, A := 1 }

/-- `Color.from_rgba(rgba)`: builds `Color(rgba[0], rgba[1], rgba[2], rgba[3])`. -/
def Color.from_rgba (rgba : List ℚ) : Except PyError Color := do
  let r ← pyGet rgba 0
  let g ← pyGet rgba 1
  let b ← pyGet rgba 2
  let a ← pyGet rgba 3
  pure { R := r, G := g, B := b, A := a }

/-- `Color.from_list(color)`: dispatches on the list length — 3 to
`from_rgb`, 4 to `from_rgba`, anything else raises
`ValueError("Color list must have 3 or 4 elements")`. -/
def Color.from_list (color : List ℚ) : Except PyError Color :=
  if color.length = 3 then Color.from_rgb color
  else if color.length = 4 then Color.from_rgba color
  else Except.error (PyError.valueError "Color list must have 3 or 4 elements")

/-- `Color.get_rgba()`: the color as the list `[R, G, B, A]`. -/
def Color.get_rgba (c : Color) : List ℚ :=
  [c.R, c.G, c.B, c.A]

/-- `Point` dataclass. -/
structure Point where
  x : ℚ
  y : ℚ
  z : ℚ
deriving DecidableEq, Repr

/-- `Point.from_list(point)`: builds `Point(point[0], point[1], point[2])`. -/
def Point.from_list (point : List ℚ) : Except PyError Point := do
  let x ← pyGet point 0
  let y ← pyGet point 1
  let z ← pyGet point 2
  pure { x := x, y := y, z := z }

/-- `AxisAlignedBoundingBox` dataclass. -/
structure AxisAlignedBoundingBox where
  min_x : ℚ
  min_y : ℚ
  min_z : ℚ
  max_x : ℚ
  max_y : ℚ
  max_z : ℚ
deriving DecidableEq, Repr

/-- `AxisAlignedBoundingBox.from_min_max(min_point, max_point)`: builds the
box from two 3-element lists, `cls(min_point[0], min_point[1],
min_point[2], max_point[0], max_point[1], max_point[2])`. -/
def AxisAlignedBoundingBox.from_min_max (min_point max_point : List ℚ) :
    Except PyError AxisAlignedBoundingBox := do
  let a ← pyGet min_point 0
  let b ← pyGet min_point 1
  let c ← pyGet min_point 2
  let d ← pyGet max_point 0
  let e ← pyGet max_point 1
  let f ← pyGet max_point 2
  pure { min_x := a, min_y := b, min_z := c, max_x := d, max_y := e, max_z := f }

/-- `AxisAlignedBoundingBox.get_min_point()`. -/
def AxisAlignedBoundingBox.get_min_point (box : AxisAlignedBoundingBox) : Point :=
  { x := box.min_x, y := box.min_y, z := box.min_z }

/-- `AxisAlignedBoundingBox.get_max_point()`. -/
def AxisAlignedBoundingBox.get_max_point (box : AxisAlignedBoundingBox) : Point :=
  { x := box.max_x, y := box.max_y, z := box.max_z }

/-- `AxisAlignedBoundingBox.get_min_max_points()`: the pair
`(get_min_point(), get_max_point())`. -/
def AxisAlignedBoundingBox.get_min_max_points (box : AxisAlignedBoundingBox) :
    Point × Point :=
  (box.get_min_point, box.get_max_point)

/-- `AxisAlignedBoundingBox.get_min()`: the list `[min_x, min_y, min_z]`. -/
def AxisAlignedBoundingBox.get_min (box : AxisAlignedBoundingBox) : List ℚ :=
  [box.min_x, box.min_y, box.min_z]

/-- `AxisAlignedBoundingBox.get_max()`: the list `[max_x, max_y, max_z]`. -/
def AxisAlignedBoundingBox.get_max (box : AxisAlignedBoundingBox) : List ℚ :=
  [box.max_x, box.max_y, box.max_z]

/-! ## Claim theorems -/

/-- C1: for every gripper-control call whose designator carries `OPEN`,
exactly one effort-goal message with effort `+0.8` is published to the
given topic; for `CLOSE`, exactly one message with effort `-0.8`. -/
theorem tmc_gripper_control_publishes_effort (designator : MoveGripperMotion)
    (topic_name : String) :
    (designator.motion = some GripperState.OPEN →
      publishedMsgs (tmc_gripper_control designator topic_name) =
        [(topic_name, TmcMsg.gripper { goal := { effort := 8/10 } })]) ∧
    (designator.motion = some GripperState.CLOSE →
      publishedMsgs (tmc_gripper_control designator topic_name) =
        [(topic_name, TmcMsg.gripper { goal := { effort := -(8/10) } })]) := by
  constructor <;> intro h <;> simp [tmc_gripper_control, h, publishedMsgs]

theorem tmc_gripper_control_publishes_effort_witness :
    publishedMsgs (tmc_gripper_control { motion := some GripperState.OPEN }
        "/hsrb/gripper_controller/grasp/goal") =
      [("/hsrb/gripper_controller/grasp/goal",
        TmcMsg.gripper { goal := { effort := 8/10 } })] ∧
    publishedMsgs (tmc_gripper_control { motion := some GripperState.CLOSE }
        "/hsrb/gripper_controller/grasp/goal") =
      [("/hsrb/gripper_controller/grasp/goal",
        TmcMsg.gripper { goal := { effort := -(8/10) } })] :=
  ⟨(tmc_gripper_control_publishes_effort _ _).1 rfl,
   (tmc_gripper_control_publishes_effort _ _).2 rfl⟩

/-- C2: the `tmc_talk` source as shipped cannot publish anything (its
`rospy.Publisher` line has a doubled comma, a syntax error that makes the
whole module fail to import), but the evident intent of the code — embedded
in `tmc_talk` — does publish exactly one `Voice` message whose `sentence`
is the designator's `cmd` and whose `language` is 1. -/
theorem tmc_talk_intended_publishes_once (designator : TalkMotion) (topic_name : String) :
    publishedMsgs (tmc_talk designator topic_name) =
      [(topic_name, TmcMsg.voice { language := 1, sentence := designator.cmd })] := rfl

/-- C3 counterexample: with the dependency unavailable, two sequential
`init_tmc_interface` calls from the uninitialized state each execute the
import, so the dependency-resolution step runs twice — not at most once. -/
theorem init_twice_unavailable_resolves_twice :
    init_twice false { is_init := false } =
      Except.ok ({ is_init := false },
        [InitEvent.resolveAttempt, InitEvent.logWarn,
         InitEvent.resolveAttempt, InitEvent.logWarn]) ∧
    resolveCount
        [InitEvent.resolveAttempt, InitEvent.logWarn,
         InitEvent.resolveAttempt, InitEvent.logWarn] = 2 ∧
    ¬ (2 ≤ 1) := ⟨rfl, rfl, by decide⟩

/-- C3 (amended): a call made after a successful initialization performs no
resolution and changes no state, and two sequential calls with the
dependency available perform the resolution step exactly once in total;
only when resolution keeps failing is it re-attempted on later calls. -/
theorem init_resolves_once_after_success (deps_available : Bool) (s : TmcState)
    (h : s.is_init = true) :
    init_tmc_interface deps_available s = Except.ok (s, []) ∧
    init_twice true { is_init := false } =
      Except.ok ({ is_init := true }, [InitEvent.resolveAttempt, InitEvent.logInfo]) ∧
    resolveCount [InitEvent.resolveAttempt, InitEvent.logInfo] = 1 := by
  refine ⟨?_, rfl, rfl⟩
  simp [init_tmc_interface, h]

theorem init_resolves_once_after_success_witness :
    init_tmc_interface false { is_init := true } =
      Except.ok ({ is_init := true }, []) ∧
    init_twice true { is_init := false } =
      Except.ok ({ is_init := true }, [InitEvent.resolveAttempt, InitEvent.logInfo]) ∧
    resolveCount [InitEvent.resolveAttempt, InitEvent.logInfo] = 1 :=
  init_resolves_once_after_success false { is_init := true } rfl

/-- C4: when the message-type dependency is unavailable,
`init_tmc_interface` returns normally (no exception), logs a warning, and
leaves the state unchanged — in particular `is_init` stays `false`. -/
theorem init_soft_fail_on_missing_dependency (s : TmcState) (h : s.is_init = false) :
    init_tmc_interface false s =
      Except.ok (s, [InitEvent.resolveAttempt, InitEvent.logWarn]) := by
  simp [init_tmc_interface, attempt_import, h]

theorem init_soft_fail_on_missing_dependency_witness :
    init_tmc_interface false { is_init := false } =
      Except.ok ({ is_init := false }, [InitEvent.resolveAttempt, InitEvent.logWarn]) :=
  init_soft_fail_on_missing_dependency { is_init := false } rfl

/-- C5: `Color.from_list` on a list whose length is neither 3 nor 4 raises
the descriptive `ValueError` and produces no `Color` value. -/
theorem color_from_list_bad_length (L : List ℚ) (h3 : L.length ≠ 3) (h4 : L.length ≠ 4) :
    Color.from_list L =
      Except.error (PyError.valueError "Color list must have 3 or 4 elements") := by
  simp [Color.from_list, h3, h4]

theorem color_from_list_bad_length_witness :
    Color.from_list ([] : List ℚ) =
      Except.error (PyError.valueError "Color list must have 3 or 4 elements") :=
  color_from_list_bad_length [] (by decide) (by decide)

/-- C6: on every 3-element list, `Color.from_list` agrees with
`Color.from_rgb`, and the resulting color has alpha component 1. -/
theorem color_from_list_three_eq_from_rgb (r g b : ℚ) :
    Color.from_list [r, g, b] = Color.from_rgb [r, g, b] ∧
    Color.from_rgb [r, g, b] = Except.ok { R := r, G := g, B := b, A := 1 } :=
  ⟨rfl, rfl⟩

/-- C7: on every 4-element list, `Color.from_list` agrees with
`Color.from_rgba`, whose result has the list's four entries as its R, G, B,
A components. -/
theorem color_from_list_four_eq_from_rgba (r g b a : ℚ) :
    Color.from_list [r, g, b, a] = Color.from_rgba [r, g, b, a] ∧
    Color.from_rgba [r, g, b, a] = Except.ok { R := r, G := g, B := b, A := a } :=
  ⟨rfl, rfl⟩

/-- C8: building a bounding box with `from_min_max` from two 3-element
lists and reading it back with `get_min_max_points` returns exactly the
pair of points carrying the input coordinates. -/
theorem aabb_from_min_max_round_trip (a b c d e f : ℚ) :
    AxisAlignedBoundingBox.from_min_max [a, b, c] [d, e, f] =
      Except.ok { min_x := a, min_y := b, min_z := c, max_x := d, max_y := e, max_z := f } ∧
    AxisAlignedBoundingBox.get_min_max_points
        { min_x := a, min_y := b, min_z := c, max_x := d, max_y := e, max_z := f } =
      ({ x := a, y := b, z := c }, { x := d, y := e, z := f }) :=
  ⟨rfl, rfl⟩

/-- C9: a gripper-control call whose designator carries a value that is
neither `OPEN` nor `CLOSE` produces no events at all — nothing is
published and the call returns silently. -/
theorem tmc_gripper_control_other_state_no_publish (designator : MoveGripperMotion)
    (topic_name : String) (h1 : designator.motion ≠ some GripperState.OPEN)
    (h2 : designator.motion ≠ some GripperState.CLOSE) :
    tmc_gripper_control designator topic_name = [] := by
  cases designator with
  | mk motion =>
    cases motion with
    | none => rfl
    | some g =>
      cases g with
      | OPEN => exact absurd rfl h1
      | CLOSE => exact absurd rfl h2

theorem tmc_gripper_control_other_state_no_publish_witness :
    tmc_gripper_control { motion := none } "/hsrb/gripper_controller/grasp/goal" = [] :=
  tmc_gripper_control_other_state_no_publish { motion := none }
    "/hsrb/gripper_controller/grasp/goal" (by decide) (by decide)

/-- C10: `Color.from_rgba` on a 4-element list followed by `get_rgba`
returns the original list. -/
theorem color_from_rgba_get_rgba_round_trip (r g b a : ℚ) :
    Color.from_rgba [r, g, b, a] = Except.ok { R := r, G := g, B := b, A := a } ∧
    Color.get_rgba { R := r, G := g, B := b, A := a } = [r, g, b, a] :=
  ⟨rfl, rfl⟩

end Pycram
